import Mathlib

/-!
Shallow embedding of the pollution-tracker backend (Rust sources:
crypto.rs, auth.rs, http.rs, db.rs, solana.rs, api.rs, main.rs).

Machine floats (Rust f32) are modelled as an exact rational value or NaN;
the only float operations the code performs are the IEEE comparison
co2 < 0.0 (false on NaN) and 2-decimal formatting.  External effects
(Postgres queries, Solana RPC calls) are modelled by an explicit store
state plus per-call outcome oracles: an oracle says whether the call
succeeds, and a successful call returns the answer computed from the
store state.  External libraries (blake3, argon2, jsonwebtoken's HMAC)
are modelled as explicit function parameters.
-/

/-- Model of Rust f32 restricted to the operations the code uses:
either NaN or an exact rational value (infinities and signed zero are
not needed by any code path modelled here). -/
inductive F32 where
  | nan : F32
  | val (q : ℚ) : F32
deriving DecidableEq

/-- IEEE `<` on the f32 model: any comparison involving NaN is false. -/
def F32.lt : F32 → F32 → Bool
  | F32.val a, F32.val b => decide (a < b)
  | _, _ => false

/-- Model of chrono DateTime of Utc: seconds since epoch plus a
subsecond nanosecond part.  The Rust method timestamp() returns the
seconds field. -/
structure Timestamp where
  secs : ℤ
  nanos : ℕ
deriving DecidableEq

/-- Boolean order on timestamps (lexicographic on seconds then nanos). -/
def Timestamp.ble (a b : Timestamp) : Bool :=
  decide (a.secs < b.secs) || (decide (a.secs = b.secs) && decide (a.nanos ≤ b.nanos))

/-- db.rs struct SensorReading: the ingestion payload. -/
structure SensorReading where
  sensor_id : ℤ
  timestamp : Timestamp
  co2 : F32
  temperature : F32
deriving DecidableEq

/-! ## crypto.rs -/

/-- Abstract interface of the argon2 password-hashing library, over an
arbitrary parsed-hash type H: hashToString is hash_password followed by
to_string for a given salt, parse is PasswordHash new, verifyOk is
verify_password(..).is_ok(). -/
structure PasswordLib (H : Type) where
  hashToString : String → String → String
  parse : String → Option H
  verifyOk : String → H → Bool

/-- crypto.rs calculate_hash: hashes the input with a salt.  The salt is
drawn from OsRng in the source; the randomness is made explicit as the
salt argument. -/
def calculate_hash {H : Type} (lib : PasswordLib H) (input : String) (salt : String) : String :=
  lib.hashToString input salt

/-- crypto.rs verify_hash: parse the stored hash, returning false on a
malformed hash (the Err branch), otherwise verify the password against
the parsed hash.  Total function: no exception path exists. -/
def verify_hash {H : Type} (lib : PasswordLib H) (password : String) (stored_hash : String) : Bool :=
  match lib.parse stored_hash with
  | none => false
  | some parsed => lib.verifyOk password parsed

/-- Round a rational to the nearest integer, ties to even (the rounding
Rust float formatting applies; exact binary f32 values never hit a
two-decimal tie, so the tie branch is unobservable on real inputs). -/
def roundHalfEven (q : ℚ) : ℤ :=
  let f := ⌊q⌋
  let r := q - (f : ℚ)
  if r < 1/2 then f
  else if 1/2 < r then f + 1
  else if f % 2 = 0 then f else f + 1

/-- Two-digit zero padding for the fractional part. -/
def pad2 (n : ℕ) : String :=
  if n < 10 then "0" ++ toString n else toString n

/-- Rust format specifier {:.2} on the f32 model: exactly two fractional
digits; NaN formats as the string NaN. -/
def format2 : F32 → String
  | F32.nan => "NaN"
  | F32.val q =>
    let sign := if q < 0 then "-" else ""
    let m := (roundHalfEven (|q| * 100)).toNat
    sign ++ toString (m / 100) ++ "." ++ pad2 (m % 100)

/-- The canonical encoding built by crypto.rs reading_hash before
hashing: field tags and values in a fixed order, joined by the fixed
delimiter, sensor id and timestamp-seconds as decimal integers, co2 and
temperature with exactly two fractional digits. -/
def readingData (r : SensorReading) : String :=
  "sensor:" ++ toString r.sensor_id ++ "|ts:" ++ toString r.timestamp.secs ++
    "|co2:" ++ format2 r.co2 ++ "|temp:" ++ format2 r.temperature

/-- crypto.rs reading_hash: blake3 hash of the canonical encoding,
rendered as hex.  The blake3 library itself is external to the
repository and is modelled as the function parameter blake3hex. -/
def reading_hash (blake3hex : String → String) (r : SensorReading) : String :=
  blake3hex (readingData r)

/-! ## http.rs -/

/-- http.rs enum TimeRange (serde names: 24h, 7d, 30d, 90d, all). -/
inductive TimeRange where
  | OneDay | OneWeek | OneMonth | OneQuarter | All
deriving DecidableEq

/-- http.rs struct TimeRangeQuery: an optional range selector. -/
structure TimeRangeQuery where
  range : Option TimeRange

/-- http.rs TimeRangeQuery to_cutoff_time, with the evaluation-time
clock (Utc now) passed explicitly.  chrono Duration days and weeks are
exact multiples of 86400 seconds. -/
def TimeRangeQuery.to_cutoff_time (q : TimeRangeQuery) (now : Timestamp) : Timestamp :=
  match q.range with
  | none => ⟨now.secs - 86400, now.nanos⟩
  | some TimeRange.OneDay => ⟨now.secs - 86400, now.nanos⟩
  | some TimeRange.OneWeek => ⟨now.secs - 7 * 86400, now.nanos⟩
  | some TimeRange.OneMonth => ⟨now.secs - 30 * 86400, now.nanos⟩
  | some TimeRange.OneQuarter => ⟨now.secs - 90 * 86400, now.nanos⟩
  | some TimeRange.All => ⟨now.secs - 180 * 86400, now.nanos⟩

/-- http.rs struct HttpResponse of T. -/
structure HttpResponse (α : Type) where
  status : ℕ
  error_msg : Option String
  body : Option α
deriving DecidableEq

def HttpResponse.success {α : Type} : HttpResponse α := ⟨200, none, none⟩

def HttpResponse.success_data {α : Type} (d : α) : HttpResponse α := ⟨200, none, some d⟩

def HttpResponse.bad_request {α : Type} (msg : String) : HttpResponse α := ⟨400, some msg, none⟩

def HttpResponse.unauthorized {α : Type} (msg : String) : HttpResponse α := ⟨401, some msg, none⟩

def HttpResponse.forbidden {α : Type} (msg : String) : HttpResponse α := ⟨403, some msg, none⟩

def HttpResponse.conflicts {α : Type} (msg : String) : HttpResponse α := ⟨409, some msg, none⟩

def HttpResponse.internal_error {α : Type} : HttpResponse α := ⟨500, some "Internal server error", none⟩

/-! ## db.rs: the store state and queries -/

/-- A row of the sensors table (id, name, location, user_id foreign key). -/
structure SensorRow where
  id : ℤ
  name : String
  location : String
  user_id : ℤ
deriving DecidableEq

/-- db.rs struct Sensor: the result model of the sensor-list query. -/
structure Sensor where
  id : ℤ
  name : String
  location : String
deriving DecidableEq

/-- A row of the users table. -/
structure User where
  id : ℤ
  username : String
  password : String
deriving DecidableEq

/-- A row of the readings table.  The INSERT lists exactly the four
columns sensor_id, timestamp, co2_level, temperature: the schema used by
this code carries no anchor-status column of any kind. -/
structure ReadingRow where
  sensor_id : ℤ
  timestamp : Timestamp
  co2 : F32
  temperature : F32
deriving DecidableEq

/-- The relational store state. -/
structure Db where
  sensors : List SensorRow
  users : List User
  readings : List ReadingRow
deriving DecidableEq

/-- Model of a sqlx error: a database error with an optional SQLSTATE
code, or any other error (connectivity and the like). -/
inductive DbErr where
  | database (code : Option String)
  | other
deriving DecidableEq

/-- db.rs validate_reading: rejects a negative CO2 value, checks nothing
else. -/
def validate_reading (p : SensorReading) : Except String Unit :=
  if F32.lt p.co2 (F32.val 0) then Except.error "Invalid CO2 value" else Except.ok ()

/-- db.rs insert_reading: append-only INSERT of the four payload fields. -/
def insert_reading (db : Db) (p : SensorReading) : Db :=
  { db with readings := db.readings ++ [⟨p.sensor_id, p.timestamp, p.co2, p.temperature⟩] }

/-- db.rs sensor_exists: SELECT EXISTS over the sensors table. -/
def sensor_exists (db : Db) (sensor_id : ℤ) : Bool :=
  db.sensors.any (fun s => s.id == sensor_id)

/-- db.rs owns_sensor: EXISTS over sensors joined to users on user_id,
matching the sensor id and the username. -/
def owns_sensor (db : Db) (username : String) (sensor_id : ℤ) : Bool :=
  db.sensors.any (fun s =>
    s.id == sensor_id && db.users.any (fun u => u.id == s.user_id && u.username == username))

/-- db.rs fetch_sensors query: sensors joined to users on user_id,
filtered to the given username, projected to (id, name, location),
ordered by name ascending. -/
def fetch_sensors_q (db : Db) (username : String) : List Sensor :=
  List.insertionSort (fun a b : Sensor => a.name ≤ b.name)
    ((db.sensors.filter (fun s =>
        db.users.any (fun u => u.id == s.user_id && u.username == username))).map
      (fun s => Sensor.mk s.id s.name s.location))

/-- db.rs fetch_readings query: readings joined to sensors and users,
filtered to the sensor id, the owner username and timestamps at or after
the cutoff derived from the range selector, ordered by timestamp
ascending. -/
def fetch_readings (db : Db) (sensor_id : ℤ) (q : TimeRangeQuery) (username : String)
    (now : Timestamp) : List ReadingRow :=
  let cutoff := q.to_cutoff_time now
  List.insertionSort (fun a b : ReadingRow => Timestamp.ble a.timestamp b.timestamp = true)
    (db.readings.filter (fun r =>
      r.sensor_id == sensor_id &&
      db.sensors.any (fun s =>
        s.id == r.sensor_id && db.users.any (fun u => u.id == s.user_id && u.username == username)) &&
      Timestamp.ble cutoff r.timestamp))

/-- db.rs struct UserForm. -/
structure UserForm where
  username : String
  password : String

/-- db.rs register_user: hash the password (salt made explicit), then
INSERT into users under the uniqueness constraint on username.  A
duplicate username surfaces as the database error with SQLSTATE 23505;
the env oracle models any other failure of the statement. -/
def register_user {H : Type} (lib : PasswordLib H) (salt : String) (db : Db)
    (env : Option DbErr) (form : UserForm) : Except DbErr Db :=
  let h := calculate_hash lib form.password salt
  match env with
  | some e => Except.error e
  | none =>
    if db.users.any (fun u => u.username == form.username) then
      Except.error (DbErr.database (some "23505"))
    else
      Except.ok { db with users := db.users ++ [⟨Int.ofNat db.users.length, form.username, h⟩] }

/-! ## auth.rs -/

/-- auth.rs struct Claims. -/
structure Claims where
  sub : String
  exp : ℤ
  role : String
deriving DecidableEq

/-- The serialized claim set fed to the token signature. -/
def serializeClaims (c : Claims) : String :=
  c.sub ++ "|" ++ toString c.exp ++ "|" ++ c.role

/-- A signed token: claims plus a signature over their serialization. -/
structure Token where
  claims : Claims
  sig : String
deriving DecidableEq

/-- auth.rs create_jwt: claim set sub = username, exp = now plus one
hour, role = user, signed with the server secret.  The jsonwebtoken
encode primitive (an HMAC) is external and passed as the mac parameter;
the clock is passed explicitly. -/
def create_jwt (mac : String → String → String) (secret : String) (username : String)
    (now : ℤ) : Token :=
  let cl : Claims := ⟨username, now + 3600, "user"⟩
  ⟨cl, mac secret (serializeClaims cl)⟩

/-- auth.rs verify_jwt token validation (jsonwebtoken decode with
Validation default): the token is accepted iff its signature matches the
mac under the given secret and the expiry check passes, where the
crate's default validation applies a 60-second leeway — the token is
rejected only once exp is below now minus 60, so a token still verifies
for up to 60 seconds after its expiry; any failure collapses to none
(the middleware maps it to 401). -/
def decode_jwt (mac : String → String → String) (secret : String) (t : Token)
    (now : ℤ) : Option Claims :=
  if t.sig == mac secret (serializeClaims t.claims) && decide (now - 60 ≤ t.claims.exp) then
    some t.claims
  else none

/-! ## solana.rs -/

/-- Failure points of the submit path. -/
inductive AnchorErr where
  | blockhashFailed
  | sendFailed
deriving DecidableEq

/-- The RPC calls the Solana client can issue. -/
inductive RpcCall where
  | getBalance
  | getLatestBlockhash
  | sendTransaction
deriving DecidableEq

/-- Outcome oracle for one submit: whether fetching the latest blockhash
succeeds, whether send_transaction succeeds, and the rendered first
transaction signature. -/
structure SubmitEnv where
  blockhash : Except AnchorErr Unit
  send : Except AnchorErr Unit
  sigStr : String

/-- solana.rs enough_balance: the wallet balance in lamports must exceed
1_000_000 (0.001 SOL). -/
def enough_balance (balance : ℕ) : Bool :=
  decide (1000000 < balance)

/-- solana.rs SolanaClient submit: build the memo pollution:v1:hash,
fetch the latest blockhash, sign, send.  Returns the submit result, the
ledger state (the list of accepted memos), and the trace of RPC calls
issued.  Fire-and-forget: success means accepted for processing. -/
def SolanaClient.submit (blake3hex : String → String) (env : SubmitEnv) (led : List String)
    (r : SensorReading) : Except AnchorErr String × List String × List RpcCall :=
  let memo := "pollution:v1:" ++ reading_hash blake3hex r
  match env.blockhash with
  | Except.error e => (Except.error e, led, [RpcCall.getLatestBlockhash])
  | Except.ok _ =>
    match env.send with
    | Except.error e => (Except.error e, led, [RpcCall.getLatestBlockhash, RpcCall.sendTransaction])
    | Except.ok _ =>
      (Except.ok env.sigStr, led ++ [memo], [RpcCall.getLatestBlockhash, RpcCall.sendTransaction])

/-! ## api.rs handlers -/

/-- Outcome oracles for the ingestion pipeline's external calls. -/
structure IngestEnv where
  existsCall : Except DbErr Unit
  insertCall : Except DbErr Unit
  submitEnv : SubmitEnv

/-- api.rs ingest_reading: validate, check the sensor is registered,
insert, then anchor; each stage short-circuits exactly as in the source.
Returns the response, the store state and the ledger state. -/
def ingest_reading (blake3hex : String → String) (db : Db) (led : List String)
    (env : IngestEnv) (p : SensorReading) : HttpResponse Unit × Db × List String :=
  match validate_reading p with
  | Except.error reason => (HttpResponse.bad_request reason, db, led)
  | Except.ok _ =>
    match env.existsCall with
    | Except.error _ => (HttpResponse.internal_error, db, led)
    | Except.ok _ =>
      if sensor_exists db p.sensor_id = false then
        (HttpResponse.bad_request "Sensor is not registered", db, led)
      else
        match env.insertCall with
        | Except.error _ => (HttpResponse.internal_error, db, led)
        | Except.ok _ =>
          match SolanaClient.submit blake3hex env.submitEnv led p with
          | (Except.ok _, led2, _) => (HttpResponse.success, insert_reading db p, led2)
          | (Except.error _, _, _) => (HttpResponse.internal_error, insert_reading db p, led)

/-- Outcome oracles for the two queries of the readings endpoint. -/
structure FetchEnv where
  owns : Except DbErr Unit
  query : Except DbErr Unit

/-- Tags for the store queries a read handler executes. -/
inductive DbCall where
  | ownsSensor
  | fetchReadings
deriving DecidableEq

/-- api.rs fetch_reading: ownership check first (500 on store error,
403 if not owned), only then the readings query.  The second component
is the trace of store queries actually executed. -/
def fetch_reading (db : Db) (env : FetchEnv) (sensor_id : ℤ) (q : TimeRangeQuery)
    (claims : Claims) (now : Timestamp) : HttpResponse (List ReadingRow) × List DbCall :=
  match env.owns with
  | Except.error _ => (HttpResponse.internal_error, [DbCall.ownsSensor])
  | Except.ok _ =>
    if owns_sensor db claims.sub sensor_id = false then
      (HttpResponse.forbidden "Not authorized to access this sensor", [DbCall.ownsSensor])
    else
      match env.query with
      | Except.error _ => (HttpResponse.internal_error, [DbCall.ownsSensor, DbCall.fetchReadings])
      | Except.ok _ =>
        (HttpResponse.success_data (fetch_readings db sensor_id q claims.sub now),
          [DbCall.ownsSensor, DbCall.fetchReadings])

/-- api.rs fetch_sensors: runs the sensor-list query scoped to the
caller's username; no ownership gate, no forbidden branch. -/
def fetch_sensors_handler (db : Db) (env : Except DbErr Unit) (username : String) :
    HttpResponse (List Sensor) :=
  match env with
  | Except.error _ => HttpResponse.internal_error
  | Except.ok _ => HttpResponse.success_data (fetch_sensors_q db username)

/-- api.rs user_registry: register the user; a database error with
SQLSTATE 23505 (the username uniqueness violation) maps to the 409
conflict response, every other failure to the generic 500. -/
def user_registry {H : Type} (lib : PasswordLib H) (salt : String) (db : Db)
    (env : Option DbErr) (form : UserForm) : HttpResponse Unit × Db :=
  match register_user lib salt db env form with
  | Except.ok db2 => (HttpResponse.success, db2)
  | Except.error (DbErr.database code) =>
    if code == some "23505" then (HttpResponse.conflicts "Username already taken", db)
    else (HttpResponse.internal_error, db)
  | Except.error _ => (HttpResponse.internal_error, db)

/-! ## Process startup -/

/-- Environment available to process startup. -/
structure StartupEnv where
  databaseUrl : Option String
  jwtSecret : Option String
  keypair : Option String
  dbConnectOk : Bool
  balance : ℕ

/-- Ways startup can refuse to start. -/
inductive StartupError where
  | missingEnv
  | keypairMissing
  | dbConnectFailed
  | insufficientBalance
deriving DecidableEq

/-- Modelled from the spec: the startup wiring that constructs the
Solana client is absent from src (src/main.rs is a stale pre-Solana
revision that references neither the solana nor the api module, while
api.rs's AppState expects a constructed SolanaClient).  Per spec
sections 4.6 and 6, startup requires the database url, the JWT secret
and the keypair to be present, the database connection to succeed, and
the keypair balance precondition enough_balance (embedded from
src/solana.rs) to hold; otherwise the process fails to start. -/
def startup (env : StartupEnv) : Except StartupError Unit :=
  match env.databaseUrl with
  | none => Except.error StartupError.missingEnv
  | some _ =>
    match env.jwtSecret with
    | none => Except.error StartupError.missingEnv
    | some _ =>
      match env.keypair with
      | none => Except.error StartupError.keypairMissing
      | some _ =>
        if env.dbConnectOk = false then Except.error StartupError.dbConnectFailed
        else if enough_balance env.balance = false then
          Except.error StartupError.insufficientBalance
        else Except.ok ()

/-! ## Claim theorems -/

/-- Claim C7: the time-range selector resolves, at evaluation time now,
to exactly 24 hours before now for the 24h selector, to the same cutoff
for an absent selector, and for the all selector to a cutoff never older
than 180 days before now. -/
theorem to_cutoff_time_resolution (now : Timestamp) :
    TimeRangeQuery.to_cutoff_time ⟨some TimeRange.OneDay⟩ now = ⟨now.secs - 86400, now.nanos⟩ ∧
    TimeRangeQuery.to_cutoff_time ⟨none⟩ now =
      TimeRangeQuery.to_cutoff_time ⟨some TimeRange.OneDay⟩ now ∧
    now.secs - 180 * 86400 ≤ (TimeRangeQuery.to_cutoff_time ⟨some TimeRange.All⟩ now).secs := by
  refine ⟨rfl, rfl, ?_⟩
  simp [TimeRangeQuery.to_cutoff_time]

/-- Claim C3: the fingerprint is the hash of the canonical encoding that
concatenates, in a fixed order with the fixed delimiter, the sensor id
as a decimal integer, the timestamp truncated to seconds as a decimal
integer, and co2 and temperature with exactly two fractional digits; for
any two readings agreeing on these four values (sub-second parts may
differ) the digests are equal, for any choice of hash function. -/
theorem reading_hash_deterministic (blake3hex : String → String) (r1 r2 : SensorReading)
    (hid : r1.sensor_id = r2.sensor_id) (hts : r1.timestamp.secs = r2.timestamp.secs)
    (hco2 : r1.co2 = r2.co2) (htemp : r1.temperature = r2.temperature) :
    reading_hash blake3hex r1 =
      blake3hex ("sensor:" ++ toString r1.sensor_id ++ "|ts:" ++ toString r1.timestamp.secs ++
        "|co2:" ++ format2 r1.co2 ++ "|temp:" ++ format2 r1.temperature) ∧
    reading_hash blake3hex r1 = reading_hash blake3hex r2 := by
  constructor
  · rfl
  · unfold reading_hash readingData
    rw [hid, hts, hco2, htemp]

/-- Witness for C3: two concrete readings differing only in nanoseconds
hash identically. -/
theorem reading_hash_deterministic_witness :
    reading_hash (fun s => s) ⟨7, ⟨100, 0⟩, F32.val 5, F32.val 21⟩ =
      (fun s => s) ("sensor:" ++ toString (7 : ℤ) ++ "|ts:" ++ toString (100 : ℤ) ++
        "|co2:" ++ format2 (F32.val 5) ++ "|temp:" ++ format2 (F32.val 21)) ∧
    reading_hash (fun s => s) ⟨7, ⟨100, 0⟩, F32.val 5, F32.val 21⟩ =
      reading_hash (fun s => s) ⟨7, ⟨100, 999999⟩, F32.val 5, F32.val 21⟩ :=
  reading_hash_deterministic (fun s => s) ⟨7, ⟨100, 0⟩, F32.val 5, F32.val 21⟩
    ⟨7, ⟨100, 999999⟩, F32.val 5, F32.val 21⟩ rfl rfl rfl rfl

/-- Claim C2: a reading with co2 strictly negative is rejected with the
client error 400 and leaves the store and the ledger untouched, for
every possible outcome of the external calls (none is made). -/
theorem ingest_rejects_negative_co2 (blake3hex : String → String) (db : Db) (led : List String)
    (env : IngestEnv) (p : SensorReading) (q : ℚ)
    (hco2 : p.co2 = F32.val q) (hq : q < 0) :
    ingest_reading blake3hex db led env p =
      (HttpResponse.bad_request "Invalid CO2 value", db, led) ∧
    (HttpResponse.bad_request "Invalid CO2 value" : HttpResponse Unit).status = 400 := by
  have hval : validate_reading p = Except.error "Invalid CO2 value" := by
    simp [validate_reading, hco2, F32.lt, hq]
  exact ⟨by simp [ingest_reading, hval], rfl⟩

/-- Witness for C2: a concrete negative-co2 reading is rejected with 400
and no state change, even though every oracle would have succeeded. -/
theorem ingest_rejects_negative_co2_witness :
    ingest_reading (fun s => s)
        (Db.mk [SensorRow.mk 7 "s7" "loc" 1] [User.mk 1 "alice" "ph"] []) []
        (IngestEnv.mk (Except.ok ()) (Except.ok ())
          (SubmitEnv.mk (Except.ok ()) (Except.ok ()) "sig"))
        (SensorReading.mk 7 (Timestamp.mk 100 0) (F32.val (-1)) (F32.val 21)) =
      (HttpResponse.bad_request "Invalid CO2 value",
        Db.mk [SensorRow.mk 7 "s7" "loc" 1] [User.mk 1 "alice" "ph"] [], []) ∧
    (HttpResponse.bad_request "Invalid CO2 value" : HttpResponse Unit).status = 400 :=
  ingest_rejects_negative_co2 (fun s => s) _ _ _ _ (-1) rfl (by norm_num)

/-- Claim C1: with co2 nonnegative, a registered sensor and a successful
insert, an ingestion whose anchor submission fails returns the generic
server error 500 while the store keeps exactly one new row, equal to the
payload's four fields; the row type carries no anchor-status column, so
nothing is rolled back or marked unanchored. -/
theorem ingest_anchor_failure_keeps_row (blake3hex : String → String) (db : Db)
    (led : List String) (env : IngestEnv) (p : SensorReading) (q : ℚ)
    (hco2 : p.co2 = F32.val q) (hq : 0 ≤ q)
    (hreg : sensor_exists db p.sensor_id = true)
    (hex : env.existsCall = Except.ok ())
    (hins : env.insertCall = Except.ok ())
    (hsub : ∃ e, (SolanaClient.submit blake3hex env.submitEnv led p).1 = Except.error e) :
    ingest_reading blake3hex db led env p =
      (HttpResponse.internal_error, insert_reading db p, led) ∧
    (insert_reading db p).readings =
      db.readings ++ [⟨p.sensor_id, p.timestamp, p.co2, p.temperature⟩] ∧
    (HttpResponse.internal_error : HttpResponse Unit).status = 500 := by
  have hval : validate_reading p = Except.ok () := by
    have hnlt : ¬ q < 0 := not_lt.mpr hq
    simp [validate_reading, hco2, F32.lt, hnlt]
  obtain ⟨e, he⟩ := hsub
  rcases hsm : SolanaClient.submit blake3hex env.submitEnv led p with ⟨res, l2, calls⟩
  rw [hsm] at he
  simp only at he
  subst he
  refine ⟨?_, rfl, rfl⟩
  simp [ingest_reading, hval, hex, hins, hreg, hsm]

/-- Witness for C1: concrete run where the blockhash fetch fails after a
successful insert; the response is 500 and the row stays. -/
theorem ingest_anchor_failure_keeps_row_witness :
    sensor_exists (Db.mk [SensorRow.mk 7 "s7" "loc" 1] [User.mk 1 "alice" "ph"] []) 7 = true ∧
    ingest_reading (fun s => s)
        (Db.mk [SensorRow.mk 7 "s7" "loc" 1] [User.mk 1 "alice" "ph"] []) []
        (IngestEnv.mk (Except.ok ()) (Except.ok ())
          (SubmitEnv.mk (Except.error AnchorErr.blockhashFailed) (Except.ok ()) "sig"))
        (SensorReading.mk 7 (Timestamp.mk 100 0) (F32.val 5) (F32.val 21)) =
      (HttpResponse.internal_error,
        insert_reading (Db.mk [SensorRow.mk 7 "s7" "loc" 1] [User.mk 1 "alice" "ph"] [])
          (SensorReading.mk 7 (Timestamp.mk 100 0) (F32.val 5) (F32.val 21)), []) :=
  ⟨rfl,
    (ingest_anchor_failure_keeps_row (fun s => s)
      (Db.mk [SensorRow.mk 7 "s7" "loc" 1] [User.mk 1 "alice" "ph"] []) []
      (IngestEnv.mk (Except.ok ()) (Except.ok ())
        (SubmitEnv.mk (Except.error AnchorErr.blockhashFailed) (Except.ok ()) "sig"))
      (SensorReading.mk 7 (Timestamp.mk 100 0) (F32.val 5) (F32.val 21)) 5
      rfl (by norm_num) rfl rfl rfl ⟨AnchorErr.blockhashFailed, rfl⟩).1⟩

/-- Claim C10: validation accepts a NaN co2 (the only check, co2 lower
than zero, is false on NaN), and such a request proceeds through insert
and anchoring exactly like a valid reading. -/
theorem validate_accepts_nan (blake3hex : String → String) (db : Db) (led : List String)
    (env : IngestEnv) (p : SensorReading)
    (hnan : p.co2 = F32.nan)
    (hreg : sensor_exists db p.sensor_id = true)
    (hex : env.existsCall = Except.ok ())
    (hins : env.insertCall = Except.ok ())
    (hbh : env.submitEnv.blockhash = Except.ok ())
    (hsend : env.submitEnv.send = Except.ok ()) :
    validate_reading p = Except.ok () ∧
    ingest_reading blake3hex db led env p =
      (HttpResponse.success, insert_reading db p,
        led ++ ["pollution:v1:" ++ reading_hash blake3hex p]) := by
  have hval : validate_reading p = Except.ok () := by
    simp [validate_reading, hnan, F32.lt]
  refine ⟨hval, ?_⟩
  simp [ingest_reading, hval, hex, hins, hreg, SolanaClient.submit, hbh, hsend]

/-- Witness for C10: a concrete NaN-co2 reading is accepted, persisted
and anchored. -/
theorem validate_accepts_nan_witness :
    validate_reading (SensorReading.mk 7 (Timestamp.mk 100 0) F32.nan (F32.val 21)) =
      Except.ok () ∧
    ingest_reading (fun s => s)
        (Db.mk [SensorRow.mk 7 "s7" "loc" 1] [User.mk 1 "alice" "ph"] []) []
        (IngestEnv.mk (Except.ok ()) (Except.ok ())
          (SubmitEnv.mk (Except.ok ()) (Except.ok ()) "sig"))
        (SensorReading.mk 7 (Timestamp.mk 100 0) F32.nan (F32.val 21)) =
      (HttpResponse.success,
        insert_reading (Db.mk [SensorRow.mk 7 "s7" "loc" 1] [User.mk 1 "alice" "ph"] [])
          (SensorReading.mk 7 (Timestamp.mk 100 0) F32.nan (F32.val 21)),
        ["pollution:v1:" ++
          reading_hash (fun s => s) (SensorReading.mk 7 (Timestamp.mk 100 0) F32.nan (F32.val 21))]) :=
  validate_accepts_nan (fun s => s) _ _ _ _ rfl rfl rfl rfl rfl rfl

/-- Claim C4: when the keypair balance is not above the minimum
(1_000_000 lamports, from solana.rs enough_balance), the process fails
to start rather than serving requests; and the submission path issues no
balance RPC call, so no per-request balance check exists. -/
theorem startup_balance_check (env : StartupEnv)
    (hbal : enough_balance env.balance = false) :
    startup env ≠ Except.ok () ∧
    ∀ (blake3hex : String → String) (se : SubmitEnv) (led : List String) (p : SensorReading),
      RpcCall.getBalance ∉ (SolanaClient.submit blake3hex se led p).2.2 := by
  constructor
  · rcases env with ⟨du, js, kp, dbok, bal⟩
    simp only at hbal
    cases du <;> cases js <;> cases kp <;> cases dbok <;> simp [startup, hbal]
  · intro bh se led p
    rcases se with ⟨b, snd, g⟩
    cases b <;> cases snd <;> simp [SolanaClient.submit]

/-- Witness for C4: with a zero balance (and every other startup input
healthy) the process does not start. -/
theorem startup_balance_check_witness :
    enough_balance 0 = false ∧
    startup (StartupEnv.mk (some "postgres") (some "secret") (some "kp") true 0) ≠
      Except.ok () :=
  ⟨rfl,
    (startup_balance_check (StartupEnv.mk (some "postgres") (some "secret") (some "kp") true 0)
      rfl).1⟩

/-- Counterexample to C5 as stated: a token issued at time 0 (expiry
3600) is verified at time 3630 — strictly after its expiry has elapsed —
and still yields the claims instead of failing, because the decode's
default validation applies a 60-second leeway. -/
theorem jwt_verifies_after_expiry :
    (0 : ℤ) + 3600 < 3630 ∧
    decode_jwt (fun k m => k ++ ":" ++ m) "k1"
        (create_jwt (fun k m => k ++ ":" ++ m) "k1" "alice" 0) 3630 =
      some ⟨"alice", 0 + 3600, "user"⟩ ∧
    decode_jwt (fun k m => k ++ ":" ++ m) "k1"
        (create_jwt (fun k m => k ++ ":" ++ m) "k1" "alice" 0) 3630 ≠ none := by
  refine ⟨by norm_num, by decide, by decide⟩

/-- Claim C5 (amended; verification honors the decode's default
60-second leeway): a token issued for subject s carries the claim set
sub s, role user, exp issuance time plus one hour; it verifies to those
claims at any time before expiry, and still does within the 60-second
leeway after expiry; it fails verification once the expiry plus the
60-second leeway has elapsed, and fails verification under any secret
whose mac disagrees with the signing secret's. -/
theorem jwt_lifecycle (mac : String → String → String) (secret secret2 s : String)
    (now now1 now2 now3 : ℤ)
    (h1 : now1 < now + 3600) (h2 : now2 ≤ now + 3600 + 60) (h3 : now + 3600 + 60 < now3)
    (hmac : mac secret2 (serializeClaims ⟨s, now + 3600, "user"⟩) ≠
      mac secret (serializeClaims ⟨s, now + 3600, "user"⟩)) :
    (create_jwt mac secret s now).claims = ⟨s, now + 3600, "user"⟩ ∧
    decode_jwt mac secret (create_jwt mac secret s now) now1 = some ⟨s, now + 3600, "user"⟩ ∧
    decode_jwt mac secret (create_jwt mac secret s now) now2 = some ⟨s, now + 3600, "user"⟩ ∧
    decode_jwt mac secret (create_jwt mac secret s now) now3 = none ∧
    ∀ n : ℤ, decode_jwt mac secret2 (create_jwt mac secret s now) n = none := by
  refine ⟨rfl, ?_, ?_, ?_, ?_⟩
  · have hle : now1 - 60 ≤ now + 3600 := by omega
    simp [decode_jwt, create_jwt, hle]
  · have hle : now2 - 60 ≤ now + 3600 := by omega
    simp [decode_jwt, create_jwt, hle]
  · have hgt : ¬ now3 - 60 ≤ now + 3600 := by omega
    simp [decode_jwt, create_jwt, hgt]
  · intro n
    have hne : mac secret (serializeClaims ⟨s, now + 3600, "user"⟩) ≠
        mac secret2 (serializeClaims ⟨s, now + 3600, "user"⟩) := fun h => hmac h.symm
    simp [decode_jwt, create_jwt, hne]

/-- Witness for C5 (amended): concrete issuance at time 0 for alice
verifies at time 10, and no longer verifies at time 5000, beyond the
expiry plus the leeway. -/
theorem jwt_lifecycle_witness :
    (10 : ℤ) < 0 + 3600 ∧
    (0 : ℤ) + 3600 + 60 < 5000 ∧
    decode_jwt (fun k m => k ++ ":" ++ m) "k1"
        (create_jwt (fun k m => k ++ ":" ++ m) "k1" "alice" 0) 10 =
      some ⟨"alice", 0 + 3600, "user"⟩ ∧
    decode_jwt (fun k m => k ++ ":" ++ m) "k1"
        (create_jwt (fun k m => k ++ ":" ++ m) "k1" "alice" 0) 5000 = none :=
  ⟨by norm_num, by norm_num,
    (jwt_lifecycle (fun k m => k ++ ":" ++ m) "k1" "k2" "alice" 0 10 3000 5000
      (by norm_num) (by norm_num) (by norm_num) (by decide)).2.1,
    (jwt_lifecycle (fun k m => k ++ ":" ++ m) "k1" "k2" "alice" 0 10 3000 5000
      (by norm_num) (by norm_num) (by norm_num) (by decide)).2.2.2.1⟩

/-- Claim C6 (amended; the sensor-list endpoint is not owns-gated):
a caller who does not own sensor X gets the forbidden outcome 403 on the
readings endpoint, with the ownership check the only query executed (the
readings query never runs) and no data in the response; the sensor-list
endpoint returns success, with its query scoped to the caller's own
sensors, so sensor X never appears in it. -/
theorem fetch_forbidden_before_query (db : Db) (env : FetchEnv) (X : ℤ)
    (q : TimeRangeQuery) (claims : Claims) (now : Timestamp)
    (hok : env.owns = Except.ok ())
    (hown : owns_sensor db claims.sub X = false) :
    fetch_reading db env X q claims now =
      (HttpResponse.forbidden "Not authorized to access this sensor", [DbCall.ownsSensor]) ∧
    (HttpResponse.forbidden "Not authorized to access this sensor" :
      HttpResponse (List ReadingRow)).status = 403 ∧
    DbCall.fetchReadings ∉ [DbCall.ownsSensor] ∧
    fetch_sensors_handler db (Except.ok ()) claims.sub =
      HttpResponse.success_data (fetch_sensors_q db claims.sub) ∧
    ∀ sr ∈ fetch_sensors_q db claims.sub, sr.id ≠ X := by
  refine ⟨?_, rfl, by simp, rfl, ?_⟩
  · simp [fetch_reading, hok, hown]
  · intro sr hsr hid
    rw [fetch_sensors_q, List.mem_insertionSort, List.mem_map] at hsr
    obtain ⟨t, ht, hview⟩ := hsr
    rw [List.mem_filter] at ht
    obtain ⟨htmem, hpred⟩ := ht
    have htid : t.id = X := by rw [← hid, ← hview]
    have : owns_sensor db claims.sub X = true := by
      rw [owns_sensor, List.any_eq_true]
      refine ⟨t, htmem, ?_⟩
      rw [htid] at *
      simp only [Bool.and_eq_true, beq_iff_eq, eq_self_iff_true]
      exact ⟨trivial, hpred⟩
    exact Bool.noConfusion (hown.symm.trans this)

/-- Witness for C6 (amended): alice does not own sensor 2 and gets 403
on its readings with only the ownership query executed. -/
theorem fetch_forbidden_before_query_witness :
    owns_sensor
        (Db.mk [SensorRow.mk 1 "s1" "l1" 1, SensorRow.mk 2 "s2" "l2" 2]
          [User.mk 1 "alice" "h1", User.mk 2 "bob" "h2"] []) "alice" 2 = false ∧
    fetch_reading
        (Db.mk [SensorRow.mk 1 "s1" "l1" 1, SensorRow.mk 2 "s2" "l2" 2]
          [User.mk 1 "alice" "h1", User.mk 2 "bob" "h2"] [])
        (FetchEnv.mk (Except.ok ()) (Except.ok ())) 2 ⟨none⟩
        (Claims.mk "alice" 9999 "user") (Timestamp.mk 0 0) =
      (HttpResponse.forbidden "Not authorized to access this sensor", [DbCall.ownsSensor]) :=
  ⟨by decide,
    (fetch_forbidden_before_query
      (Db.mk [SensorRow.mk 1 "s1" "l1" 1, SensorRow.mk 2 "s2" "l2" 2]
        [User.mk 1 "alice" "h1", User.mk 2 "bob" "h2"] [])
      (FetchEnv.mk (Except.ok ()) (Except.ok ())) 2 ⟨none⟩
      (Claims.mk "alice" 9999 "user") (Timestamp.mk 0 0) rfl (by decide)).1⟩

/-- Counterexample to C6 as stated: the sensor-list request of a caller
who does not own sensor 2 answers 200 (success with the caller's own
sensors), not the forbidden outcome 403 the claim asserts for every
owns-gated request including the sensor list. -/
theorem sensor_list_not_forbidden :
    owns_sensor
        (Db.mk [SensorRow.mk 1 "s1" "l1" 1, SensorRow.mk 2 "s2" "l2" 2]
          [User.mk 1 "alice" "h1", User.mk 2 "bob" "h2"] []) "alice" 2 = false ∧
    (fetch_sensors_handler
        (Db.mk [SensorRow.mk 1 "s1" "l1" 1, SensorRow.mk 2 "s2" "l2" 2]
          [User.mk 1 "alice" "h1", User.mk 2 "bob" "h2"] [])
        (Except.ok ()) "alice").status = 200 ∧
    (fetch_sensors_handler
        (Db.mk [SensorRow.mk 1 "s1" "l1" 1, SensorRow.mk 2 "s2" "l2" 2]
          [User.mk 1 "alice" "h1", User.mk 2 "bob" "h2"] [])
        (Except.ok ()) "alice").status ≠ 403 := by
  refine ⟨by decide, by decide, by decide⟩

/-- Claim C8: the credential round-trip holds for the wrapper code over
any argon2-conforming library (contract hypotheses stated at the used
instances): verifying a password against its own hash succeeds, a
different password fails, distinct salts give distinct stored hashes,
and a malformed stored hash verifies to false (total function, no
exception path). -/
theorem credential_roundtrip {H : Type} (lib : PasswordLib H) (p p2 s s2 bad : String) (ph : H)
    (hparse : lib.parse (calculate_hash lib p s) = some ph)
    (hok : lib.verifyOk p ph = true)
    (hsound : ∀ q2 : String, lib.verifyOk q2 ph = true → q2 = p)
    (hne : p2 ≠ p)
    (hinj : calculate_hash lib p s = calculate_hash lib p s2 → s = s2)
    (hs : s ≠ s2)
    (hbad : lib.parse bad = none) :
    verify_hash lib p (calculate_hash lib p s) = true ∧
    verify_hash lib p2 (calculate_hash lib p s) = false ∧
    calculate_hash lib p s ≠ calculate_hash lib p s2 ∧
    verify_hash lib p bad = false := by
  refine ⟨?_, ?_, fun h => hs (hinj h), ?_⟩
  · simp [verify_hash, hparse, hok]
  · have hv2 : lib.verifyOk p2 ph = false := by
      cases hv : lib.verifyOk p2 ph
      · rfl
      · exact absurd (hsound p2 hv) hne
    rw [verify_hash, hparse]
    exact hv2
  · simp [verify_hash, hbad]

/-- Toy conforming instance of the password-library interface, used only
to witness the credential round-trip at concrete inputs. -/
def toyLib8 : PasswordLib (String × String) :=
  ⟨fun p s => s ++ ":" ++ p,
    fun str =>
      if str == "a:pw" then some ("a", "pw")
      else if str == "b:pw" then some ("b", "pw")
      else none,
    fun q ph => ph.2 == q⟩

/-- Witness for C8: concrete round-trip on the toy conforming library. -/
theorem credential_roundtrip_witness :
    verify_hash toyLib8 "pw" (calculate_hash toyLib8 "pw" "a") = true ∧
    verify_hash toyLib8 "pw2" (calculate_hash toyLib8 "pw" "a") = false ∧
    calculate_hash toyLib8 "pw" "a" ≠ calculate_hash toyLib8 "pw" "b" ∧
    verify_hash toyLib8 "pw" "zz" = false :=
  credential_roundtrip toyLib8 "pw" "pw2" "a" "b" "zz" ("a", "pw")
    (by decide) (by decide) (fun q2 h => (beq_iff_eq.mp h).symm)
    (by decide) (by decide) (by decide) (by decide)

/-- Claim C9: when registration hits the username uniqueness constraint
(SQLSTATE 23505) the caller receives the distinct conflict outcome 409
with the store unchanged, and every other database failure during
registration surfaces as the generic server error 500. -/
theorem register_conflict_on_duplicate {H : Type} (lib : PasswordLib H) (salt : String)
    (db : Db) (form : UserForm)
    (hdup : db.users.any (fun u => u.username == form.username) = true) :
    user_registry lib salt db none form =
      (HttpResponse.conflicts "Username already taken", db) ∧
    (HttpResponse.conflicts "Username already taken" : HttpResponse Unit).status = 409 ∧
    ∀ e : DbErr, e ≠ DbErr.database (some "23505") →
      user_registry lib salt db (some e) form = (HttpResponse.internal_error, db) := by
  refine ⟨?_, rfl, ?_⟩
  · simp [user_registry, register_user, hdup]
  · intro e he
    rcases e with code | _
    · have hcode : code ≠ some "23505" := fun h => he (by rw [h])
      simp [user_registry, register_user, hcode]
    · simp [user_registry, register_user]

/-- Trivial password-library instance used only by the registration
witness (the conflict path never inspects the hash). -/
def toyLib9 : PasswordLib Unit :=
  ⟨fun p _ => p, fun _ => none, fun _ _ => false⟩

/-- Witness for C9: registering the already-present username alice
returns the 409 conflict with the store unchanged. -/
theorem register_conflict_on_duplicate_witness :
    (Db.mk [] [User.mk 1 "alice" "h1"] []).users.any (fun u => u.username == "alice") = true ∧
    user_registry toyLib9 "salt" (Db.mk [] [User.mk 1 "alice" "h1"] []) none
        (UserForm.mk "alice" "pw") =
      (HttpResponse.conflicts "Username already taken", Db.mk [] [User.mk 1 "alice" "h1"] []) :=
  ⟨by decide,
    (register_conflict_on_duplicate toyLib9 "salt" (Db.mk [] [User.mk 1 "alice" "h1"] [])
      (UserForm.mk "alice" "pw") (by decide)).1⟩
